import Mathlib

/-!
Verification development for the session-scoped A2A worker manager of the
fantasy-draft repository.  The definitions below are a shallow embedding of
`core/dynamic_a2a_manager.py` and `core/a2a_helpers.py`: pure fragments become
Lean functions, the mutable manager state becomes an explicit state record
threaded through the operations, and external effects (the OS bind probe,
HTTP health probes, the remote RPC calls, `json.loads`) become parameters of
the operations so that every externally observable behaviour of the
environment is quantified over in the theorems.
-/

namespace FantasyDraft

/-! ## Generic string helpers (Python `in`, `startswith`, `lower`) -/

/-- `startsWithL pat s` : the character list `s` starts with `pat`
(Python `str.startswith` on the underlying characters). -/
def startsWithL : List Char → List Char → Bool
  | [], _ => true
  | _ :: _, [] => false
  | c :: cs, d :: ds => c == d && startsWithL cs ds

/-- `hasSubL pat s` : `pat` occurs as a contiguous run inside `s`
(Python `pat in s` on strings). -/
def hasSubL (pat : List Char) : List Char → Bool
  | [] => startsWithL pat []
  | d :: ds => startsWithL pat (d :: ds) || hasSubL pat ds

/-- Python `pat in s` for strings. -/
def containsSub (s pat : String) : Bool := hasSubL pat.toList s.toList

/-- Python `s.startswith(pat)`. -/
def startsWithStr (s pat : String) : Bool := startsWithL pat.toList s.toList

/-- Python `s.lower()` (ASCII case folding suffices for the strings the
manager inspects: exception class names and messages). -/
def lowerStr (s : String) : String := String.mk (s.toList.map Char.toLower)

/-! ## Port allocator (`_find_available_ports` / `_check_ports_available` /
`_release_ports`, dynamic_a2a_manager.py lines 74-132)

The OS bind probe (`socket.bind` succeeding on some interface) is abstracted
as a predicate `osFree : Nat → Bool` supplied by the environment; the
class-level reserved set `_used_ports` is a `Finset Nat`. -/

/-- Python `range(a, b, step)` for naturals (`step > 0`). -/
def pyRange (a b step : Nat) : List Nat :=
  (List.range ((b - a + step - 1) / step)).map (fun i => a + step * i)

/-- `list(range(base, base + count))` : the window of `count` consecutive
ports starting at `base`. -/
def windowPorts (base count : Nat) : List Nat :=
  (List.range count).map (fun i => base + i)

/-- `_check_ports_available`: every port of the list passes the OS bind
probe (the socket bind/close dance is abstracted into `osFree`; a port that
binds on no interface, or errors, makes the whole check `false`). -/
def checkPortsAvailable (osFree : Nat → Bool) (ports : List Nat) : Bool :=
  ports.all osFree

/-- A candidate window is accepted iff none of its ports is in the reserved
set and the OS probe passes for all of them (lines 86-90). -/
def windowOk (used : Finset Nat) (osFree : Nat → Bool) (ports : List Nat) : Bool :=
  !(ports.any (fun p => decide (p ∈ used))) && checkPortsAvailable osFree ports

/-- Scan of one candidate range (lines 82-95): bases are
`range(range_start, range_end - count, 10)` — note the stride of 10 — and the
first accepted window is returned. -/
def scanRange (used : Finset Nat) (osFree : Nat → Bool)
    (count rstart rend : Nat) : Option (List Nat) :=
  ((pyRange rstart (rend - count) 10).find?
      (fun base => windowOk used osFree (windowPorts base count))).map
    (fun base => windowPorts base count)

/-- `_find_available_ports` (lines 74-97): tries each candidate range in
order; `Option.none` models the final `RuntimeError` (port exhaustion). -/
def findAvailablePorts (used : Finset Nat) (osFree : Nat → Bool)
    (ranges : List (Nat × Nat)) (count : Nat) : Option (List Nat) :=
  match ranges with
  | [] => Option.none
  | (rs, re) :: rest =>
    match scanRange used osFree count rs re with
    | some ports => some ports
    | Option.none => findAvailablePorts used osFree rest count

/-! ### Multi-session trace model for the reservation invariant (C1)

All port-set operations run under the single class-level `_port_lock`, so a
concurrent history is a sequence of atomic reserve/release steps.  `alloc`
maps a session id to its `allocated_ports` list. -/

structure PortState where
  used : Finset Nat
  alloc : Nat → List Nat

/-- One atomic operation on the shared port pool: a session's
`_find_available_ports` (with the environment's bind-probe answers and
candidate ranges) or its `_release_ports`. -/
inductive PortOp where
  | reserve (sid : Nat) (osFree : Nat → Bool) (ranges : List (Nat × Nat)) (count : Nat)
  | release (sid : Nat)

/-- Effect of one operation.  A successful reserve adds the window to
`_used_ports` and overwrites the session's `allocated_ports` (line 92-93);
a failed reserve leaves the state unchanged (the `RuntimeError` propagates);
release removes exactly the session's `allocated_ports` from the shared set
and clears the list (lines 128-132). -/
def applyPortOp (s : PortState) : PortOp → PortState
  | .reserve sid osFree ranges count =>
    match findAvailablePorts s.used osFree ranges count with
    | some ports =>
      { used := s.used ∪ ports.toFinset, alloc := Function.update s.alloc sid ports }
    | Option.none => s
  | .release sid =>
    { used := s.used \ (s.alloc sid).toFinset, alloc := Function.update s.alloc sid [] }

/-- Initial state: empty reserved set, no session holds ports. -/
def portInit : PortState := ⟨∅, fun _ => []⟩

/-- Run a history of operations. -/
def runPortOps (ops : List PortOp) : PortState := ops.foldl applyPortOp portInit

/-- The C1 invariant: every allocated port is in the shared reserved set, and
two distinct sessions never hold a common port. -/
def PortInv (s : PortState) : Prop :=
  (∀ sid p, p ∈ s.alloc sid → p ∈ s.used) ∧
  (∀ sid₁ sid₂ p, sid₁ ≠ sid₂ → p ∈ s.alloc sid₁ → p ∉ s.alloc sid₂)

/-! ### Session lifecycle (`start_agents` / `stop_agents`, lines 175-359) -/

/-- The five agent teams (team 4 is the human user), line 71 / 161. -/
def agentTeams : List Nat := [1, 2, 3, 5, 6]

structure SessionState where
  used : Finset Nat
  allocatedPorts : List Nat
  agentTools : List Nat
  isRunning : Bool
deriving DecidableEq

/-- `start_agents` (lines 175-335), with agent/tool creation failures decided
by the environment (`toolOk team` is false when the per-config `try` block or
the tool-creation `try` block raised for that team).  The returned flag is
`true` when the port-exhaustion `RuntimeError` propagated (line 97 / 335);
on that path the `except` handler first runs `_release_ports` (line 334).
`is_running` becomes true iff at least one agent tool was created
(line 326). -/
def start_agents (osFree : Nat → Bool) (ranges : List (Nat × Nat))
    (toolOk : Nat → Bool) (s : SessionState) : SessionState × Bool :=
  if s.isRunning then (s, false)
  else
    match findAvailablePorts s.used osFree ranges 5 with
    | Option.none =>
      ({ s with used := s.used \ s.allocatedPorts.toFinset, allocatedPorts := [] }, true)
    | some ports =>
      let tools := agentTeams.filter toolOk
      ({ s with used := s.used ∪ ports.toFinset, allocatedPorts := ports,
                agentTools := tools, isRunning := !tools.isEmpty }, false)

/-- `stop_agents` (lines 337-359): a no-op when `is_running` is false;
otherwise cancels the serve tasks, clears the agent maps, and releases the
session's ports from the shared set. -/
def stop_agents (s : SessionState) : SessionState :=
  if !s.isRunning then s
  else
    { s with agentTools := [], isRunning := false,
             used := s.used \ s.allocatedPorts.toFinset, allocatedPorts := [] }

end FantasyDraft

namespace FantasyDraft

/-! ## Lemmas about the allocator -/

theorem scanRange_windowOk {used : Finset Nat} {osFree : Nat → Bool}
    {count rs re : Nat} {ports : List Nat}
    (h : scanRange used osFree count rs re = some ports) :
    windowOk used osFree ports = true := by
  unfold scanRange at h
  rw [Option.map_eq_some'] at h
  obtain ⟨base, hfind, hports⟩ := h
  subst hports
  have := List.find?_some hfind
  simpa using this

theorem findAvailablePorts_windowOk {used : Finset Nat} {osFree : Nat → Bool}
    {count : Nat} {ports : List Nat} :
    ∀ ranges, findAvailablePorts used osFree ranges count = some ports →
      windowOk used osFree ports = true
  | [], h => by simp [findAvailablePorts] at h
  | (rs, re) :: rest, h => by
    unfold findAvailablePorts at h
    cases hs : scanRange used osFree count rs re with
    | some w =>
      rw [hs] at h
      simp only [Option.some.injEq] at h
      subst h
      exact scanRange_windowOk hs
    | none =>
      rw [hs] at h
      exact findAvailablePorts_windowOk rest h

theorem windowOk_not_used {used : Finset Nat} {osFree : Nat → Bool}
    {ports : List Nat} (h : windowOk used osFree ports = true) :
    ∀ p ∈ ports, p ∉ used := by
  unfold windowOk at h
  rw [Bool.and_eq_true] at h
  intro p hp hmem
  have hany : ports.any (fun q => decide (q ∈ used)) = false := by
    cases hx : ports.any (fun q => decide (q ∈ used)) with
    | false => rfl
    | true => rw [hx] at h; exact absurd h.1 (by simp)
  rw [List.any_eq_false] at hany
  exact absurd (by simpa using hmem) (by simpa using hany p hp)

theorem portInv_apply {s : PortState} (hs : PortInv s) (op : PortOp) :
    PortInv (applyPortOp s op) := by
  obtain ⟨h1, h2⟩ := hs
  cases op with
  | release sid =>
    constructor
    · intro sid2 p hp
      simp only [applyPortOp, Function.update_apply] at hp ⊢
      by_cases hsid : sid2 = sid
      · simp [hsid] at hp
      · rw [if_neg hsid] at hp
        simp only [Finset.mem_sdiff, List.mem_toFinset]
        exact ⟨h1 sid2 p hp, fun hmem => h2 sid2 sid p hsid hp hmem⟩
    · intro a b p hab hpa hpb
      simp only [applyPortOp, Function.update_apply] at hpa hpb
      by_cases ha : a = sid
      · simp [ha] at hpa
      · rw [if_neg ha] at hpa
        by_cases hb : b = sid
        · simp [hb] at hpb
        · rw [if_neg hb] at hpb
          exact h2 a b p hab hpa hpb
  | reserve sid osFree ranges count =>
    cases hf : findAvailablePorts s.used osFree ranges count with
    | none =>
      simp only [applyPortOp, hf]
      exact ⟨h1, h2⟩
    | some ports =>
      have hfresh := windowOk_not_used (findAvailablePorts_windowOk ranges hf)
      constructor
      · intro sid2 p hp
        simp only [applyPortOp, hf, Function.update_apply] at hp ⊢
        by_cases hsid : sid2 = sid
        · rw [if_pos hsid] at hp
          exact Finset.mem_union_right _ (List.mem_toFinset.mpr hp)
        · rw [if_neg hsid] at hp
          exact Finset.mem_union_left _ (h1 sid2 p hp)
      · intro a b p hab hpa hpb
        simp only [applyPortOp, hf, Function.update_apply] at hpa hpb
        by_cases ha : a = sid
        · rw [if_pos ha] at hpa
          rw [if_neg (by rw [ha] at hab; exact fun hbs => hab hbs.symm)] at hpb
          exact hfresh p hpa (h1 b p hpb)
        · rw [if_neg ha] at hpa
          by_cases hb : b = sid
          · rw [if_pos hb] at hpb
            exact hfresh p hpb (h1 a p hpa)
          · rw [if_neg hb] at hpb
            exact h2 a b p hab hpa hpb

theorem runPortOps_inv (ops : List PortOp) : PortInv (runPortOps ops) := by
  have hgen : ∀ s, PortInv s → PortInv (ops.foldl applyPortOp s) := by
    induction ops with
    | nil => intro s hs; exact hs
    | cons op rest ih => intro s hs; exact ih _ (portInv_apply hs op)
  refine hgen portInit ?_
  constructor
  · intro sid p hp
    simp [portInit] at hp
  · intro a b p hab hpa
    simp [portInit] at hpa

end FantasyDraft

namespace FantasyDraft

/-! ## Python value model and `a2a_helpers.py`

`PyVal` models the Python values that flow through response parsing: strings,
numbers, booleans, `None`, lists, string-keyed dicts, and already-constructed
`A2AOutput` instances.  `json.loads` is an external library call and is passed
in as a function `jsonLoads : String → Option PyVal` (`Option.none` = the call
raised). -/

/-- The `A2AOutput` pydantic model (dynamic_a2a_manager.py lines 31-40). -/
structure A2AOutput where
  type : String
  player_name : Option String := Option.none
  reasoning : Option String := Option.none
  trash_talk : Option String := Option.none
  should_comment : Option Bool := Option.none
  comment : Option String := Option.none
deriving DecidableEq, Repr

inductive PyVal where
  | str (s : String)
  | int (n : Int)
  | bool (b : Bool)
  | none
  | list (xs : List PyVal)
  | dict (kvs : List (String × PyVal))
  | obj (o : A2AOutput)

/-- Python dict lookup on the assoc-list representation. -/
def dlookup (kvs : List (String × PyVal)) (k : String) : Option PyVal :=
  (kvs.find? (fun kv => kv.1 == k)).map (fun kv => kv.2)

/-- Python `==` between a string and an arbitrary value (values of other
types never compare equal to a string). -/
def pyEqStr (s : String) : PyVal → Bool
  | .str t => s == t
  | _ => false

/-- Python truthiness. -/
def pyTruthy : PyVal → Bool
  | .str s => s != ""
  | .int n => n != 0
  | .bool b => b
  | .none => false
  | .list xs => !xs.isEmpty
  | .dict kvs => !kvs.isEmpty
  | .obj _ => true

/-- A Python exception: class name and message (`str(e)`). -/
structure PyErr where
  name : String
  msg : String
deriving DecidableEq, Repr

/-- Python `needle in v`: substring test on strings, key test on dicts,
membership on lists — and a `TypeError` on non-container values.  This is the
operator used at a2a_helpers.py line 74 (`'message' in result.get('status', {})`). -/
def pyContainsStr (needle : String) : PyVal → Except PyErr Bool
  | .str s => .ok (containsSub s needle)
  | .dict kvs => .ok (kvs.any (fun kv => kv.1 == needle))
  | .list xs => .ok (xs.any (pyEqStr needle))
  | .int _ => .error ⟨"TypeError", "argument of type int is not iterable"⟩
  | .bool _ => .error ⟨"TypeError", "argument of type bool is not iterable"⟩
  | .none => .error ⟨"TypeError", "argument of type NoneType is not iterable"⟩
  | .obj _ => .error ⟨"TypeError", "argument of type A2AOutput is not iterable"⟩

/-- Pydantic validation of an `Optional[str]` field: absent or `None` gives
the default, a string is accepted, anything else is a validation error. -/
def asOptStr : Option PyVal → Option (Option String)
  | Option.none => some Option.none
  | some (.str s) => some (some s)
  | some .none => some Option.none
  | some _ => Option.none

/-- Pydantic validation of an `Optional[bool]` field. -/
def asOptBool : Option PyVal → Option (Option Bool)
  | Option.none => some Option.none
  | some (.bool b) => some (some b)
  | some .none => some Option.none
  | some _ => Option.none

/-- `A2AOutput(**kvs)`: pydantic construction from keyword arguments;
`Option.none` models the `ValidationError` (required `type` missing or a
field of the wrong type), which every caller catches.  Extra keys are
ignored, as under pydantic's default config. -/
def mkA2AOutput (kvs : List (String × PyVal)) : Option A2AOutput :=
  match dlookup kvs "type" with
  | some (.str t) =>
    match asOptStr (dlookup kvs "player_name"), asOptStr (dlookup kvs "reasoning"),
        asOptStr (dlookup kvs "trash_talk"), asOptBool (dlookup kvs "should_comment"),
        asOptStr (dlookup kvs "comment") with
    | some pn, some rs, some tt, some sc, some cm => some ⟨t, pn, rs, tt, sc, cm⟩
    | _, _, _, _, _ => Option.none
  | _ => Option.none

/-- Line starting with `TaskId:` or `Timestamp:` (a2a_helpers.py lines 38, 42). -/
def isTaskIdOrTimestampLine (l : String) : Bool :=
  startsWithStr l "TaskId:" || startsWithStr l "Timestamp:"

/-- The continuation lines of a multi-line `Message:` JSON payload
(a2a_helpers.py lines 40-44): collect until a `TaskId:`/`Timestamp:` line. -/
def collectJsonLines : List String → List String
  | [] => []
  | l :: ls => if isTaskIdOrTimestampLine l then [] else l :: collectJsonLines ls

/-- Find the first `Message:` line and assemble the JSON text after it
(a2a_helpers.py lines 33-45); `Option.none` when no line starts with
`Message:` (the loop then leaves `result` unchanged). -/
def findMessageJson : List String → Option String
  | [] => Option.none
  | l :: ls =>
    if startsWithStr l "Message:" then
      let js := (l.drop 8).trim
      match ls with
      | [] => some js
      | l1 :: _ =>
        if isTaskIdOrTimestampLine l1 then some js
        else some (String.intercalate "\n" (js :: collectJsonLines ls))
    else findMessageJson ls

/-- `_extract_from_wrapper` (a2a_helpers.py lines 80-90).  The whole body is
wrapped in `try/except: return None`, so any shape mismatch yields
`Option.none`. -/
def extractFromWrapper (jsonLoads : String → Option PyVal)
    (kvs : List (String × PyVal)) : Option A2AOutput :=
  match dlookup kvs "status" with
  | some (.dict st) =>
    match dlookup st "message" with
    | some (.dict msg) =>
      match dlookup msg "parts" with
      | some (.list (p :: _)) =>
        match p with
        | .dict pd =>
          match (dlookup pd "text").getD (.str "") with
          | .str ts =>
            match jsonLoads ts with
            | some (.dict rd) => mkA2AOutput rd
            | _ => Option.none
          | _ => Option.none
        | _ => Option.none
      | _ => Option.none
    | _ => Option.none
  | _ => Option.none

/-- The string pre-processing stage of `parse_a2a_response` (a2a_helpers.py
lines 27-57): a string response is routed through the `Status:`/`Message:`
extraction or plain `json.loads`, both inside `try/except: return None`
(`Option.none` here = that early `return None`); any other value passes
through unchanged. -/
def parseStage1 (jsonLoads : String → Option PyVal) (result : PyVal) : Option PyVal :=
  match result with
  | .str s =>
    if containsSub s "Status:" && containsSub s "Message:" then
      match findMessageJson (s.trim.splitOn "\n") with
      | some js =>
        match jsonLoads js with
        | some v => some v
        | Option.none => Option.none
      | Option.none => some (.str s)
    else
      match jsonLoads s with
      | some v => some v
      | Option.none => Option.none
  | v => some v

/-- The conversion stage of `parse_a2a_response` (a2a_helpers.py
lines 60-77): an `A2AOutput` instance is returned as-is; a dict is converted
via its `type` field, else routed through the A2A wrapper shape when
`'message' in result.get('status', {})` — that raw Python `in` raises
`TypeError` on non-container `status` values; anything else returns `None`. -/
def parseConverted (jsonLoads : String → Option PyVal) (r : PyVal) :
    Except PyErr (Option A2AOutput) :=
  match r with
  | .obj o => .ok (some o)
  | .dict kvs =>
    let converted : Option A2AOutput :=
      if (dlookup kvs "type").isSome then mkA2AOutput kvs else Option.none
    match converted with
    | some o => .ok (some o)
    | Option.none =>
      if (dlookup kvs "status").isSome then
        match pyContainsStr "message" ((dlookup kvs "status").getD (.dict [])) with
        | .error e => .error e
        | .ok true => .ok (extractFromWrapper jsonLoads kvs)
        | .ok false => .ok Option.none
      else .ok Option.none
  | _ => .ok Option.none

/-- `parse_a2a_response` (a2a_helpers.py lines 9-77).  The result is an
`Except`: `.error` is an exception escaping to the caller, `.ok o` is a
normal return. -/
def parse_a2a_response (jsonLoads : String → Option PyVal) (result : PyVal) :
    Except PyErr (Option A2AOutput) :=
  match parseStage1 jsonLoads result with
  | Option.none => .ok Option.none
  | some r => parseConverted jsonLoads r

/-- Scan for the first `TaskId:` line carrying a usable id (a2a_helpers.py
lines 97-102); an empty or literal `None` id lets the scan continue. -/
def findTaskIdLine : List String → Option PyVal
  | [] => Option.none
  | l :: ls =>
    if startsWithStr l "TaskId:" then
      let tid := (l.drop 7).trim
      if tid != "" && tid != "None" then some (.str tid) else findTaskIdLine ls
    else findTaskIdLine ls

/-- `extract_task_id` (a2a_helpers.py lines 93-108): the `TaskId:` line of a
string response, or the `task_id` entry of a dict response (returned raw,
whatever its type). -/
def extract_task_id (result : PyVal) : Option PyVal :=
  match result with
  | .str s =>
    if containsSub s "TaskId:" then findTaskIdLine (s.trim.splitOn "\n")
    else Option.none
  | .dict kvs => dlookup kvs "task_id"
  | _ => Option.none

end FantasyDraft

namespace FantasyDraft

/-! ## Manager state and the RPC-layer operations
(`check_and_restart_agent`, `restart_agent_server`, `get_pick`,
`get_comment`, dynamic_a2a_manager.py lines 361-715)

The per-session mutable attributes that these operations read and write are
collected in `MgrState`; serve-task bookkeeping (`self.serve_tasks`) affects
them only through "is the task still running" tests, which the environment
answers.  Every awaited external effect (health-probe GET, `connect_ex`,
the A2A tool call, tool creation) is an environment outcome. -/

structure MgrState where
  agentTools : List Nat
  taskIds : List (Nat × PyVal)
  requestCounts : List (Nat × Nat)
  allocatedPorts : List Nat
  agents : List Nat

/-- Assoc-list lookup for the per-team dicts (`task_ids`, `request_counts`). -/
def alookup {α : Type} (m : List (Nat × α)) (k : Nat) : Option α :=
  (m.find? (fun kv => kv.1 == k)).map (fun kv => kv.2)

/-- Assoc-list write `m[k] = v`. -/
def aset {α : Type} (m : List (Nat × α)) (k : Nat) (v : α) : List (Nat × α) :=
  (k, v) :: m.filter (fun kv => kv.1 != k)

/-- Assoc-list `m.pop(k, None)`. -/
def aerase {α : Type} (m : List (Nat × α)) (k : Nat) : List (Nat × α) :=
  m.filter (fun kv => kv.1 != k)

/-- Python list indexing `l[i]`: `IndexError` when out of range. -/
def pyIndex (l : List Nat) (i : Nat) : Except PyErr Nat :=
  match l.get? i with
  | some v => .ok v
  | Option.none => .error ⟨"IndexError", "list index out of range"⟩

/-- Python `l.index(x)` (`_get_port_index`, lines 69-72): `ValueError` when
absent. -/
def pyListIndex (l : List Nat) (x : Nat) : Except PyErr Nat :=
  match l.findIdx? (fun y => y == x) with
  | some i => .ok i
  | Option.none => .error ⟨"ValueError", "x not in list"⟩

/-- Outcome of one health-probe GET (`client.get(".well-known/agent.json")`,
lines 458-472): any response at all counts as alive; `httpx.RequestError` /
`TimeoutException` keeps polling; any other exception breaks out. -/
inductive ProbeOutcome where
  | ok
  | reqErr
  | otherErr
deriving DecidableEq, Repr

/-- Environment for one `check_and_restart_agent` call. -/
structure CheckEnv where
  probes : Nat → ProbeOutcome
  portConnected : Bool
  agentServeExn : Option PyErr

/-- The polling loop of lines 457-472: attempt `i` with outcome `probes i`;
`ok` returns alive, `reqErr` retries (after a 0.5 s sleep), `otherErr`
breaks. -/
def probeLoopFrom (probes : Nat → ProbeOutcome) : Nat → Nat → Bool
  | _, 0 => false
  | i, fuel + 1 =>
    match probes i with
    | .ok => true
    | .reqErr => probeLoopFrom probes (i + 1) fuel
    | .otherErr => false

/-- Actions the restart path performs, in order, used to state what
`restart_agent_server` does between cancelling and re-binding. -/
inductive RAction where
  | cancelTask
  | popTool
  | sleepMs (ms : Nat)
  | bindProbe (port : Nat)
  | bindServe (port : Nat)
  | waitForServer (port : Nat)
  | createTool (port : Nat)
deriving DecidableEq, Repr

/-- Environment for one `restart_agent_server` call. -/
structure RestartEnv where
  taskRunning : Bool
  serveToolExn : Option PyErr

/-- `restart_agent_server` (lines 361-439).  After the guards it cancels the
still-running serve task, pops the tool, sleeps a fixed 1.0 s
(`await asyncio.sleep(1.0)`, line 389 — there is no bind probe), and
re-binds the server on the same port inside a `try` block; an exception
there (modelled at tool creation, the last awaited step) yields `false` with
the tool left popped. -/
def restart_agent_server (env : RestartEnv) (team : Nat) (s : MgrState) :
    Except PyErr (Bool × MgrState × List RAction) :=
  if !(s.agents.contains team) then .ok (false, s, [])
  else
    match pyListIndex agentTeams team with
    | .error e => .error e
    | .ok portIdx =>
      if portIdx ≥ s.allocatedPorts.length then .ok (false, s, [])
      else
        let port := (s.allocatedPorts.get? portIdx).getD 0
        let acts0 : List RAction := if env.taskRunning then [RAction.cancelTask] else []
        let s1 : MgrState := { s with agentTools := s.agentTools.filter (fun y => y != team) }
        let acts1 := acts0 ++ [RAction.popTool, RAction.sleepMs 1000]
        if !(s.agents.contains team) then .ok (false, s1, acts1)
        else
          let acts2 := acts1 ++ [RAction.bindServe port, RAction.waitForServer port,
                                 RAction.createTool port]
          match env.serveToolExn with
          | Option.none => .ok (true, { s1 with agentTools := team :: s1.agentTools }, acts2)
          | some _ => .ok (false, s1, acts2)

/-- `check_and_restart_agent` (lines 441-563).  Healthy probes return alive;
otherwise, if `connect_ex` still reaches the port the worker is assumed
merely slow (line 485-488); otherwise a restart is attempted inside a `try`
block: success re-registers the tool, an exception pops the tool
(line 561). -/
def check_and_restart_agent (env : CheckEnv) (team : Nat) (s : MgrState) :
    Except PyErr (Bool × MgrState) :=
  if !(s.agentTools.contains team) then .ok (false, s)
  else
    match pyListIndex agentTeams team with
    | .error e => .error e
    | .ok portIdx =>
      match pyIndex s.allocatedPorts portIdx with
      | .error e => .error e
      | .ok _port =>
        if probeLoopFrom env.probes 0 5 then .ok (true, s)
        else
          match pyListIndex agentTeams team with
          | .error e => .error e
          | .ok portIdx2 =>
            match pyIndex s.allocatedPorts portIdx2 with
            | .error e => .error e
            | .ok _port2 =>
              if env.portConnected then .ok (true, s)
              else
                match pyListIndex agentTeams team with
                | .error e => .error e
                | .ok portIdx3 =>
                  if !(agentTeams.contains team) then .error ⟨"StopIteration", ""⟩
                  else
                    match pyIndex s.allocatedPorts portIdx3 with
                    | .error e => .error e
                    | .ok _port3 =>
                      if s.agents.contains team then
                        match env.agentServeExn with
                        | Option.none =>
                          .ok (true, { s with agentTools :=
                            if s.agentTools.contains team then s.agentTools
                            else team :: s.agentTools })
                        | some _ =>
                          .ok (false, { s with agentTools :=
                            s.agentTools.filter (fun y => y != team) })
                      else .ok (false, s)

end FantasyDraft

namespace FantasyDraft

/-- Outcome of one awaited A2A tool call
(`self.agent_tools[team](prompt, task_id=task_id)`). -/
inductive CallOutcome where
  | ok (v : PyVal)
  | exn (e : PyErr)

/-- Error classification of `get_pick`'s `except` handler (lines 646-650):
`is_timeout`, `is_503` and `is_network` are substring tests on the exception
class name and `str(e)`. -/
def isTimeoutErr (e : PyErr) : Bool :=
  containsSub (lowerStr e.msg) "timeout" || containsSub (lowerStr e.name) "readtimeout"

def is503Err (e : PyErr) : Bool :=
  containsSub e.msg "503" || containsSub (lowerStr e.msg) "service unavailable"

def isNetworkErr (e : PyErr) : Bool :=
  containsSub e.name "A2AClientHTTPError" || is503Err e

/-- Environment for one `get_pick` call: the health-check environment, the
restart environments for the in-`try` round restart and the in-`except` 503
restart of each attempt, the tool-call outcome of each attempt, and
`json.loads`. -/
structure PickEnv where
  check : CheckEnv
  restartA : Nat → RestartEnv
  restartB : Nat → RestartEnv
  callOutcome : Nat → CallOutcome
  jsonLoads : String → Option PyVal

/-- Observable request-level actions of the orchestrator loops: an outgoing
RPC (with the continuity token it carries and the per-team request counter
at the moment the request is constructed), a backoff sleep, and a
`restart_agent_server` invocation. -/
inductive PAction where
  | rpcCall (attempt : Nat) (taskId : Option PyVal) (countAtCall : Nat)
  | backoff (ms : Nat)
  | restartInvoke

/-- The opening of each `get_pick` attempt (lines 597-610): increment the
per-team request counter; when it exceeds 5, drop the stored `task_id` and
reset the counter to zero (lines 600-604); then restart the server at the
first request of a later round (lines 606-610).  The third component is an
exception escaping the restart call (it would reach the `except` handler of
the attempt). -/
def pickPreamble (env : PickEnv) (team roundNum attempt : Nat) (s : MgrState) :
    MgrState × List PAction × Option PyErr :=
  let c := (alookup s.requestCounts team).getD 0 + 1
  let s1 : MgrState := { s with requestCounts := aset s.requestCounts team c }
  let s2 : MgrState :=
    if c > 5 then
      { s1 with taskIds := aerase s1.taskIds team,
                requestCounts := aset s1.requestCounts team 0 }
    else s1
  let countNow := (alookup s2.requestCounts team).getD 0
  if countNow == 1 && roundNum > 1 then
    match restart_agent_server (env.restartA attempt) team s2 with
    | .ok (_, s3, _) => (s3, [PAction.restartInvoke], Option.none)
    | .error e => (s2, [PAction.restartInvoke], some e)
  else (s2, [], Option.none)

/-- Store the continuity token returned by a response when it is truthy
(`new_task_id = extract_task_id(result); if new_task_id: ...`, lines 620-622,
and the same pattern at lines 696-698). -/
def storeTaskId (team : Nat) (result : PyVal) (s : MgrState) : MgrState :=
  match extract_task_id result with
  | some ntid =>
    if pyTruthy ntid then { s with taskIds := aset s.taskIds team ntid } else s
  | Option.none => s

/-- The send-and-parse tail of one `get_pick` attempt (lines 616-643): the
tool call's outcome; on a response, store any returned task id
(lines 620-622), parse (line 625), and on parse failure apply the
plain-text player-name fallback over the first 20 available players
(lines 631-643).  `.error` is an exception reaching the `except` handler
(the call's own, or `parse_a2a_response`'s `TypeError`). -/
def pickSendParse (env : PickEnv) (team : Nat) (availablePlayers : List String)
    (attempt : Nat) (s3 : MgrState) : MgrState × Except PyErr (Option A2AOutput) :=
  match env.callOutcome attempt with
  | .exn e => (s3, .error e)
  | .ok result =>
    let s4 : MgrState := storeTaskId team result s3
    match parse_a2a_response env.jsonLoads result with
    | .error e => (s4, .error e)
    | .ok (some output) => (s4, .ok (some output))
    | .ok Option.none =>
      match result with
      | .str rawStr =>
        match (availablePlayers.take 20).find? (fun p => containsSub rawStr p) with
        | some player =>
          (s4, .ok (some
            { type := "pick", player_name := some player,
              reasoning := some "[Agent response was not in correct format]",
              trash_talk := Option.none, should_comment := Option.none,
              comment := Option.none }))
        | Option.none => (s4, .ok Option.none)
      | _ => (s4, .ok Option.none)

/-- The `try`-block body of one `get_pick` attempt (lines 596-643),
assembled from `pickPreamble` and `pickSendParse`; the request action
records the `task_id` the request carries (line 613) and the per-team
request count at that moment.  A `KeyError` arises at line 617 when the
tool was popped by a failed restart. -/
def pickAttemptBody (env : PickEnv) (team : Nat) (availablePlayers : List String)
    (roundNum attempt : Nat) (s : MgrState) :
    MgrState × List PAction × Except PyErr (Option A2AOutput) :=
  match pickPreamble env team roundNum attempt s with
  | (s3, pacts, some e) => (s3, pacts, .error e)
  | (s3, pacts, Option.none) =>
    let tid := alookup s3.taskIds team
    if !(s3.agentTools.contains team) then
      (s3, pacts, .error ⟨"KeyError", toString team⟩)
    else
      match pickSendParse env team availablePlayers attempt s3 with
      | (s4, r) =>
        (s4, pacts ++ [PAction.rpcCall attempt tid ((alookup s3.requestCounts team).getD 0)], r)

/-- The retry loop of `get_pick` (lines 591-671): up to `max_retries = 3`
attempts; an exception is retried only when `attempt < max_retries - 1` and
it is timeout- or network-class, with a backoff of `base_delay * 2^attempt`
seconds (`base_delay = 1.0`, recorded in milliseconds) and, for a 503 on the
first attempt, a server restart before the sleep; any other exception ends
the call with `None` (lines 664-669). -/
def getPickLoop (env : PickEnv) (team : Nat) (availablePlayers : List String)
    (roundNum : Nat) :
    Nat → Nat → MgrState → List PAction →
    Except PyErr (Option A2AOutput × MgrState × List PAction)
  | 0, _, s, acts => .ok (Option.none, s, acts)
  | fuel + 1, attempt, s, acts =>
    match pickAttemptBody env team availablePlayers roundNum attempt s with
    | (s1, a1, .ok out) => .ok (out, s1, acts ++ a1)
    | (s1, a1, .error e) =>
      if attempt < 3 - 1 && (isTimeoutErr e || isNetworkErr e) then
        let restartStep : MgrState × List PAction × Option PyErr :=
          if is503Err e && attempt == 0 then
            match restart_agent_server (env.restartB attempt) team s1 with
            | .ok (_, s2, _) => (s2, [PAction.restartInvoke], Option.none)
            | .error e2 => (s1, [PAction.restartInvoke], some e2)
          else (s1, [], Option.none)
        match restartStep with
        | (_, _, some e2) => .error e2
        | (s2, a2, Option.none) =>
          getPickLoop env team availablePlayers roundNum fuel (attempt + 1) s2
            (acts ++ a1 ++ a2 ++ [PAction.backoff (1000 * 2 ^ attempt)])
      else .ok (Option.none, s1, acts ++ a1)

/-- `get_pick` (lines 565-671): absent tool returns `None` immediately;
then the health check runs outside any `try` (line 572), and the retry loop
follows. -/
def get_pick (env : PickEnv) (team : Nat) (availablePlayers : List String)
    (roundNum : Nat) (s : MgrState) :
    Except PyErr (Option A2AOutput × MgrState × List PAction) :=
  if !(s.agentTools.contains team) then .ok (Option.none, s, [])
  else
    match check_and_restart_agent env.check team s with
    | .error e => .error e
    | .ok (false, s1) => .ok (Option.none, s1, [])
    | .ok (true, s1) => getPickLoop env team availablePlayers roundNum 3 0 s1 []

/-- Environment for one `get_comment` call. -/
structure CommentEnv where
  callOutcome : Nat → CallOutcome
  jsonLoads : String → Option PyVal

/-- The retry loop of `get_comment` (lines 683-715): `max_retries = 2`; a
response parses to a comment only when `should_comment` and `comment` are
both truthy; an exception is retried (after a fixed 1.0 s sleep) only when
`attempt < max_retries - 1` and `str(e).lower()` contains `timeout`. -/
def getCommentLoop (env : CommentEnv) (team : Nat) :
    Nat → Nat → MgrState → List PAction →
    Except PyErr (Option String × MgrState × List PAction)
  | 0, _, s, acts => .ok (Option.none, s, acts)
  | fuel + 1, attempt, s, acts =>
    let tid := alookup s.taskIds team
    if !(s.agentTools.contains team) then
      -- line 693 `self.agent_tools[commenting_team]`: KeyError, caught by the
      -- handler, never timeout-class, so the call returns None
      .ok (Option.none, s, acts)
    else
      let acts := acts ++ [PAction.rpcCall attempt tid ((alookup s.requestCounts team).getD 0)]
      match env.callOutcome attempt with
      | .ok result =>
        let s1 : MgrState := storeTaskId team result s
        match parse_a2a_response env.jsonLoads result with
        | .error e =>
          if attempt < 2 - 1 && containsSub (lowerStr e.msg) "timeout" then
            getCommentLoop env team fuel (attempt + 1) s1 (acts ++ [PAction.backoff 1000])
          else .ok (Option.none, s1, acts)
        | .ok out =>
          let good : Option String :=
            match out with
            | some o =>
              match o.should_comment, o.comment with
              | some true, some cm => if cm != "" then some cm else Option.none
              | _, _ => Option.none
            | Option.none => Option.none
          .ok (good, s1, acts)
      | .exn e =>
        if attempt < 2 - 1 && containsSub (lowerStr e.msg) "timeout" then
          getCommentLoop env team fuel (attempt + 1) s (acts ++ [PAction.backoff 1000])
        else .ok (Option.none, s, acts)

/-- `get_comment` (lines 673-715). -/
def get_comment (env : CommentEnv) (team : Nat) (s : MgrState) :
    Except PyErr (Option String × MgrState × List PAction) :=
  if !(s.agentTools.contains team) then .ok (Option.none, s, [])
  else getCommentLoop env team 2 0 s []

end FantasyDraft

namespace FantasyDraft

/-! ## Supporting lemmas for the RPC-layer theorems -/

theorem alookup_aset {α : Type} (m : List (Nat × α)) (k : Nat) (v : α) :
    alookup (aset m k v) k = some v := by
  simp [alookup, aset]

theorem alookup_aerase {α : Type} (m : List (Nat × α)) (k : Nat) :
    alookup (aerase m k) k = Option.none := by
  simp only [alookup, aerase, Option.map_eq_none']
  rw [List.find?_eq_none]
  intro x hx
  have := (List.mem_filter.mp hx).2
  simpa using this

theorem pyIndex_ok {l : List Nat} {i : Nat} (h : i < l.length) :
    ∃ v, pyIndex l i = .ok v := by
  unfold pyIndex
  cases hg : l.get? i with
  | some v => exact ⟨v, rfl⟩
  | none => exact absurd (List.get?_eq_none.mp hg) (by omega)

theorem pyListIndex_agentTeams {team : Nat} (h : team ∈ agentTeams) :
    ∃ i, pyListIndex agentTeams team = .ok i ∧ i < 5 := by
  simp only [agentTeams, List.mem_cons, List.not_mem_nil, or_false] at h
  rcases h with h | h | h | h | h <;> subst h <;>
    exact ⟨_, by constructor <;> first | rfl | omega⟩

theorem restart_agent_server_total (env : RestartEnv) (team : Nat) (s : MgrState)
    (hteam : team ∈ agentTeams) :
    ∃ b s2 tr, restart_agent_server env team s = .ok (b, s2, tr) := by
  obtain ⟨i, hi, _⟩ := pyListIndex_agentTeams hteam
  unfold restart_agent_server
  simp only [hi]
  by_cases h1 : (!s.agents.contains team) = true
  · rw [if_pos h1]; exact ⟨_, _, _, rfl⟩
  · rw [if_neg h1]
    by_cases h2 : i ≥ s.allocatedPorts.length
    · rw [if_pos h2]; exact ⟨_, _, _, rfl⟩
    · rw [if_neg h2]
      cases hag : s.agents.contains team with
      | false => rw [hag] at h1; simp at h1
      | true =>
        cases htr : env.taskRunning <;> cases hse : env.serveToolExn <;>
          exact ⟨_, _, _, rfl⟩

theorem check_and_restart_agent_total (env : CheckEnv) (team : Nat) (s : MgrState)
    (hteams : ∀ t ∈ s.agentTools, t ∈ agentTeams)
    (hlen : 5 ≤ s.allocatedPorts.length) :
    ∃ b s2, check_and_restart_agent env team s = .ok (b, s2) := by
  unfold check_and_restart_agent
  by_cases htool : (!s.agentTools.contains team) = true
  · rw [if_pos htool]; exact ⟨_, _, rfl⟩
  · rw [if_neg htool]
    have hteam : team ∈ agentTeams := by
      refine hteams team ?_
      rw [Bool.not_eq_true', Bool.not_eq_false] at htool
      simpa using htool
    obtain ⟨i, hi, hi5⟩ := pyListIndex_agentTeams hteam
    obtain ⟨p, hp⟩ := pyIndex_ok (l := s.allocatedPorts) (i := i) (by omega)
    have hcont : agentTeams.contains team = true := by simpa using hteam
    simp only [hi, hp, hcont]
    by_cases hpr : probeLoopFrom env.probes 0 5 = true
    · rw [if_pos hpr]; exact ⟨_, _, rfl⟩
    · rw [if_neg hpr]
      cases hpc : env.portConnected with
      | true => exact ⟨_, _, rfl⟩
      | false =>
        cases hag : s.agents.contains team <;>
          cases hat : s.agentTools.contains team <;>
            cases hse : env.agentServeExn <;> exact ⟨_, _, rfl⟩

end FantasyDraft

namespace FantasyDraft

theorem getPickLoop_total (env : PickEnv) (team : Nat) (ap : List String) (rn : Nat)
    (hteam : team ∈ agentTeams) :
    ∀ fuel attempt s acc, ∃ out s2 acts,
      getPickLoop env team ap rn fuel attempt s acc = .ok (out, s2, acts) := by
  intro fuel
  induction fuel with
  | zero => intro attempt s acc; exact ⟨Option.none, s, acc, rfl⟩
  | succ fuel ih =>
    intro attempt s acc
    unfold getPickLoop
    rcases pickAttemptBody env team ap rn attempt s with ⟨s1, a1, r⟩
    cases r with
    | ok out => exact ⟨out, s1, acc ++ a1, rfl⟩
    | error e =>
      dsimp only
      by_cases hretry : (decide (attempt < 3 - 1) && (isTimeoutErr e || isNetworkErr e)) = true
      · rw [if_pos hretry]
        by_cases h503 : (is503Err e && attempt == 0) = true
        · rw [if_pos h503]
          obtain ⟨b, s2, tr, hre⟩ := restart_agent_server_total (env.restartB attempt) team s1 hteam
          rw [hre]
          exact ih (attempt + 1) s2
            (acc ++ a1 ++ [PAction.restartInvoke] ++ [PAction.backoff (1000 * 2 ^ attempt)])
        · rw [if_neg h503]
          exact ih (attempt + 1) s1 (acc ++ a1 ++ [] ++ [PAction.backoff (1000 * 2 ^ attempt)])
      · rw [if_neg hretry]
        exact ⟨Option.none, s1, acc ++ a1, rfl⟩

theorem getPickLoop_acts_shape (env : PickEnv) (team : Nat) (ap : List String) (rn : Nat) :
    ∀ fuel attempt s acc out s2 acts,
      getPickLoop env team ap rn fuel attempt s acc = .ok (out, s2, acts) →
      ∃ tail, acts = acc ++ tail := by
  intro fuel
  induction fuel with
  | zero =>
    intro attempt s acc out s2 acts h
    unfold getPickLoop at h
    simp only [Except.ok.injEq, Prod.mk.injEq] at h
    exact ⟨[], by rw [← h.2.2, List.append_nil]⟩
  | succ fuel ih =>
    intro attempt s acc out s2 acts h
    unfold getPickLoop at h
    rcases hb : pickAttemptBody env team ap rn attempt s with ⟨s1, a1, r⟩
    rw [hb] at h
    cases r with
    | ok out1 =>
      simp only [Except.ok.injEq, Prod.mk.injEq] at h
      exact ⟨a1, h.2.2.symm⟩
    | error e =>
      dsimp only at h
      by_cases hretry : (decide (attempt < 3 - 1) && (isTimeoutErr e || isNetworkErr e)) = true
      · rw [if_pos hretry] at h
        by_cases h503 : (is503Err e && attempt == 0) = true
        · rw [if_pos h503] at h
          cases hre : restart_agent_server (env.restartB attempt) team s1 with
          | ok v =>
            rcases v with ⟨b, s2x, tr⟩
            rw [hre] at h
            obtain ⟨tail, ht⟩ := ih (attempt + 1) s2x
              (acc ++ a1 ++ [PAction.restartInvoke] ++ [PAction.backoff (1000 * 2 ^ attempt)])
              out s2 acts h
            exact ⟨a1 ++ [PAction.restartInvoke] ++ [PAction.backoff (1000 * 2 ^ attempt)] ++ tail,
              by simp only [ht, List.append_assoc]⟩
          | error e2 =>
            rw [hre] at h
            exact absurd h (by simp)
        · rw [if_neg h503] at h
          obtain ⟨tail, ht⟩ := ih (attempt + 1) s1
            (acc ++ a1 ++ [] ++ [PAction.backoff (1000 * 2 ^ attempt)]) out s2 acts h
          exact ⟨a1 ++ [] ++ [PAction.backoff (1000 * 2 ^ attempt)] ++ tail,
            by simp only [ht, List.append_assoc]⟩
      · rw [if_neg hretry] at h
        simp only [Except.ok.injEq, Prod.mk.injEq] at h
        exact ⟨a1, h.2.2.symm⟩

def isRpcCall : PAction → Bool
  | .rpcCall _ _ _ => true
  | _ => false

def rpcCount (acts : List PAction) : Nat := (acts.filter isRpcCall).length

theorem rpcCount_append (a b : List PAction) :
    rpcCount (a ++ b) = rpcCount a + rpcCount b := by
  simp [rpcCount]

theorem pickPreamble_rpcCount (env : PickEnv) (team rn attempt : Nat) (s : MgrState) :
    rpcCount (pickPreamble env team rn attempt s).2.1 = 0 := by
  unfold pickPreamble
  dsimp only
  repeat' split
  all_goals simp [rpcCount, isRpcCall]

theorem pickAttemptBody_rpcCount (env : PickEnv) (team : Nat) (ap : List String)
    (rn attempt : Nat) (s : MgrState) :
    rpcCount (pickAttemptBody env team ap rn attempt s).2.1 ≤ 1 := by
  unfold pickAttemptBody
  rcases hp : pickPreamble env team rn attempt s with ⟨s3, pacts, pe⟩
  have h0 : rpcCount pacts = 0 := by
    have := pickPreamble_rpcCount env team rn attempt s
    rw [hp] at this
    exact this
  cases pe with
  | some e => simp [h0]
  | none =>
    dsimp only
    split
    · simp [h0]
    · rcases hsp : pickSendParse env team ap attempt s3 with ⟨s4, r⟩
      dsimp only
      rw [rpcCount_append, h0]
      simp [rpcCount, isRpcCall]

end FantasyDraft

namespace FantasyDraft

theorem storeTaskId_counts (team : Nat) (result : PyVal) (s : MgrState) :
    (storeTaskId team result s).requestCounts = s.requestCounts := by
  unfold storeTaskId
  cases extract_task_id result with
  | some ntid => dsimp only; split <;> rfl
  | none => rfl

theorem storeTaskId_tools (team : Nat) (result : PyVal) (s : MgrState) :
    (storeTaskId team result s).agentTools = s.agentTools := by
  unfold storeTaskId
  cases extract_task_id result with
  | some ntid => dsimp only; split <;> rfl
  | none => rfl

/-- Count of outgoing RPC requests in a finished call's result
(`0` for an escaped exception, which sends nothing further). -/
def resRpcCount {α : Type} : Except PyErr (α × MgrState × List PAction) → Nat
  | .ok x => rpcCount x.2.2
  | .error _ => 0

theorem getPickLoop_rpcBound (env : PickEnv) (team : Nat) (ap : List String) (rn : Nat) :
    ∀ fuel attempt s acc,
      resRpcCount (getPickLoop env team ap rn fuel attempt s acc) ≤ rpcCount acc + fuel := by
  intro fuel
  induction fuel with
  | zero => intro attempt s acc; simp [getPickLoop, resRpcCount]
  | succ fuel ih =>
    intro attempt s acc
    unfold getPickLoop
    have hble := pickAttemptBody_rpcCount env team ap rn attempt s
    rcases hb : pickAttemptBody env team ap rn attempt s with ⟨s1, a1, r⟩
    rw [hb] at hble
    have hble2 : rpcCount a1 ≤ 1 := hble
    cases r with
    | ok out =>
      show resRpcCount (Except.ok (out, s1, acc ++ a1)) ≤ rpcCount acc + (fuel + 1)
      simp only [resRpcCount, rpcCount_append]
      omega
    | error e =>
      dsimp only
      by_cases hretry : (decide (attempt < 3 - 1) && (isTimeoutErr e || isNetworkErr e)) = true
      · rw [if_pos hretry]
        by_cases h503 : (is503Err e && attempt == 0) = true
        · rw [if_pos h503]
          cases hre : restart_agent_server (env.restartB attempt) team s1 with
          | ok v =>
            rcases v with ⟨b, s2x, tr⟩
            dsimp only
            have hrec := ih (attempt + 1) s2x
              (acc ++ a1 ++ [PAction.restartInvoke] ++ [PAction.backoff (1000 * 2 ^ attempt)])
            have hx : rpcCount (acc ++ a1 ++ [PAction.restartInvoke] ++
                [PAction.backoff (1000 * 2 ^ attempt)]) = rpcCount acc + rpcCount a1 := by
              simp [rpcCount_append, rpcCount, isRpcCall]
            rw [hx] at hrec
            omega
          | error e2 => simp [resRpcCount]
        · rw [if_neg h503]
          dsimp only
          have hrec := ih (attempt + 1) s1
            (acc ++ a1 ++ [] ++ [PAction.backoff (1000 * 2 ^ attempt)])
          have hx : rpcCount (acc ++ a1 ++ [] ++ [PAction.backoff (1000 * 2 ^ attempt)]) =
              rpcCount acc + rpcCount a1 := by
            simp [rpcCount_append, rpcCount, isRpcCall]
          rw [hx] at hrec
          omega
      · rw [if_neg hretry]
        show resRpcCount (Except.ok (Option.none, s1, acc ++ a1)) ≤ rpcCount acc + (fuel + 1)
        simp only [resRpcCount, rpcCount_append]
        omega

theorem get_pick_rpcBound (env : PickEnv) (team : Nat) (ap : List String) (rn : Nat)
    (s : MgrState) : resRpcCount (get_pick env team ap rn s) ≤ 3 := by
  unfold get_pick
  split
  · simp [resRpcCount, rpcCount]
  · cases hc : check_and_restart_agent env.check team s with
    | error e => simp [resRpcCount]
    | ok v =>
      rcases v with ⟨b, s1⟩
      cases b with
      | false => simp [resRpcCount, rpcCount]
      | true =>
        have := getPickLoop_rpcBound env team ap rn 3 0 s1 []
        simpa [rpcCount] using this

theorem getCommentLoop_total (env : CommentEnv) (team : Nat) :
    ∀ fuel attempt s acc, ∃ out s2 acts,
      getCommentLoop env team fuel attempt s acc = .ok (out, s2, acts) := by
  intro fuel
  induction fuel with
  | zero => intro attempt s acc; exact ⟨Option.none, s, acc, rfl⟩
  | succ fuel ih =>
    intro attempt s acc
    unfold getCommentLoop
    split
    · exact ⟨_, _, _, rfl⟩
    · cases hco : env.callOutcome attempt with
      | ok result =>
        dsimp only
        cases hpr : parse_a2a_response env.jsonLoads result with
        | error e =>
          dsimp only
          by_cases hretry :
              (decide (attempt < 2 - 1) && containsSub (lowerStr e.msg) "timeout") = true
          · rw [if_pos hretry]; exact ih _ _ _
          · rw [if_neg hretry]; exact ⟨_, _, _, rfl⟩
        | ok out => exact ⟨_, _, _, rfl⟩
      | exn e =>
        dsimp only
        by_cases hretry :
            (decide (attempt < 2 - 1) && containsSub (lowerStr e.msg) "timeout") = true
        · rw [if_pos hretry]; exact ih _ _ _
        · rw [if_neg hretry]; exact ⟨_, _, _, rfl⟩

theorem getCommentLoop_counts (env : CommentEnv) (team : Nat) :
    ∀ fuel attempt s acc out s2 acts,
      getCommentLoop env team fuel attempt s acc = .ok (out, s2, acts) →
      s2.requestCounts = s.requestCounts := by
  intro fuel
  induction fuel with
  | zero =>
    intro attempt s acc out s2 acts h
    unfold getCommentLoop at h
    simp only [Except.ok.injEq, Prod.mk.injEq] at h
    rw [← h.2.1]
  | succ fuel ih =>
    intro attempt s acc out s2 acts h
    unfold getCommentLoop at h
    split at h
    · simp only [Except.ok.injEq, Prod.mk.injEq] at h
      rw [← h.2.1]
    · cases hco : env.callOutcome attempt with
      | ok result =>
        rw [hco] at h
        dsimp only at h
        cases hpr : parse_a2a_response env.jsonLoads result with
        | error e =>
          rw [hpr] at h
          dsimp only at h
          by_cases hretry :
              (decide (attempt < 2 - 1) && containsSub (lowerStr e.msg) "timeout") = true
          · rw [if_pos hretry] at h
            have := ih _ _ _ _ _ _ h
            rw [this, storeTaskId_counts]
          · rw [if_neg hretry] at h
            simp only [Except.ok.injEq, Prod.mk.injEq] at h
            rw [← h.2.1, storeTaskId_counts]
        | ok out1 =>
          rw [hpr] at h
          dsimp only at h
          simp only [Except.ok.injEq, Prod.mk.injEq] at h
          rw [← h.2.1, storeTaskId_counts]
      | exn e =>
        rw [hco] at h
        dsimp only at h
        by_cases hretry :
            (decide (attempt < 2 - 1) && containsSub (lowerStr e.msg) "timeout") = true
        · rw [if_pos hretry] at h
          exact ih _ _ _ _ _ _ h
        · rw [if_neg hretry] at h
          simp only [Except.ok.injEq, Prod.mk.injEq] at h
          rw [← h.2.1]

theorem getCommentLoop_rpcBound (env : CommentEnv) (team : Nat) :
    ∀ fuel attempt s acc,
      resRpcCount (getCommentLoop env team fuel attempt s acc) ≤ rpcCount acc + fuel := by
  intro fuel
  induction fuel with
  | zero => intro attempt s acc; simp [getCommentLoop, resRpcCount]
  | succ fuel ih =>
    intro attempt s acc
    unfold getCommentLoop
    split
    · show resRpcCount (Except.ok (Option.none, s, acc)) ≤ rpcCount acc + (fuel + 1)
      simp [resRpcCount]
    · cases hco : env.callOutcome attempt with
      | ok result =>
        dsimp only
        cases hpr : parse_a2a_response env.jsonLoads result with
        | error e =>
          dsimp only
          by_cases hretry :
              (decide (attempt < 2 - 1) && containsSub (lowerStr e.msg) "timeout") = true
          · rw [if_pos hretry]
            have hrec := ih (attempt + 1) (storeTaskId team result s)
              (acc ++ [PAction.rpcCall attempt (alookup s.taskIds team)
                ((alookup s.requestCounts team).getD 0)] ++ [PAction.backoff 1000])
            have hx : rpcCount (acc ++ [PAction.rpcCall attempt (alookup s.taskIds team)
                ((alookup s.requestCounts team).getD 0)] ++ [PAction.backoff 1000]) =
                rpcCount acc + 1 := by
              simp [rpcCount_append, rpcCount, isRpcCall]
            rw [hx] at hrec
            omega
          · rw [if_neg hretry]
            show resRpcCount (Except.ok (Option.none, storeTaskId team result s,
              acc ++ [PAction.rpcCall attempt (alookup s.taskIds team)
                ((alookup s.requestCounts team).getD 0)])) ≤ rpcCount acc + (fuel + 1)
            simp only [resRpcCount, rpcCount_append]
            simp [rpcCount, isRpcCall]
        | ok out =>
          simp only [resRpcCount, rpcCount_append]
          simp [rpcCount, isRpcCall]
      | exn e =>
        dsimp only
        by_cases hretry :
            (decide (attempt < 2 - 1) && containsSub (lowerStr e.msg) "timeout") = true
        · rw [if_pos hretry]
          have hrec := ih (attempt + 1) s
            (acc ++ [PAction.rpcCall attempt (alookup s.taskIds team)
              ((alookup s.requestCounts team).getD 0)] ++ [PAction.backoff 1000])
          have hx : rpcCount (acc ++ [PAction.rpcCall attempt (alookup s.taskIds team)
              ((alookup s.requestCounts team).getD 0)] ++ [PAction.backoff 1000]) =
              rpcCount acc + 1 := by
            simp [rpcCount_append, rpcCount, isRpcCall]
          rw [hx] at hrec
          omega
        · rw [if_neg hretry]
          show resRpcCount (Except.ok (Option.none, s,
            acc ++ [PAction.rpcCall attempt (alookup s.taskIds team)
              ((alookup s.requestCounts team).getD 0)])) ≤ rpcCount acc + (fuel + 1)
          simp only [resRpcCount, rpcCount_append]
          simp [rpcCount, isRpcCall]

theorem get_comment_rpcBound (env : CommentEnv) (team : Nat) (s : MgrState) :
    resRpcCount (get_comment env team s) ≤ 2 := by
  unfold get_comment
  split
  · simp [resRpcCount, rpcCount]
  · have := getCommentLoop_rpcBound env team 2 0 s []
    simpa [rpcCount] using this

end FantasyDraft

namespace FantasyDraft

theorem probeLoopFrom_ok (probes : Nat → ProbeOutcome) (i fuel : Nat)
    (h : probes i = ProbeOutcome.ok) : probeLoopFrom probes i (fuel + 1) = true := by
  unfold probeLoopFrom
  rw [h]

theorem check_probe_ok (env : CheckEnv) (team : Nat) (s : MgrState)
    (hprobe : env.probes 0 = ProbeOutcome.ok)
    (hteam : team ∈ agentTeams) (hlen : 5 ≤ s.allocatedPorts.length)
    (htool : s.agentTools.contains team = true) :
    check_and_restart_agent env team s = .ok (true, s) := by
  unfold check_and_restart_agent
  rw [if_neg (by rw [htool]; simp)]
  obtain ⟨i, hi, hi5⟩ := pyListIndex_agentTeams hteam
  obtain ⟨p, hp⟩ := pyIndex_ok (l := s.allocatedPorts) (i := i) (by omega)
  simp only [hi, hp]
  rw [if_pos (probeLoopFrom_ok env.probes 0 4 hprobe)]

theorem pickPreamble_reset (env : PickEnv) (team rn attempt : Nat) (s : MgrState)
    (hcount : alookup s.requestCounts team = some 5) :
    pickPreamble env team rn attempt s =
      ({ s with taskIds := aerase s.taskIds team,
                requestCounts := aset (aset s.requestCounts team 6) team 0 },
       [], Option.none) := by
  unfold pickPreamble
  dsimp only
  rw [hcount]
  dsimp only [Option.getD]
  have h6 : 5 + 1 > 5 := by omega
  simp only [if_pos h6, alookup_aset, Option.getD]
  simp

theorem pickPreamble_round1 (env : PickEnv) (team attempt : Nat) (s : MgrState) :
    ∃ s2, pickPreamble env team 1 attempt s = (s2, [], Option.none) ∧
      s2.agentTools = s.agentTools ∧ s2.allocatedPorts = s.allocatedPorts := by
  unfold pickPreamble
  dsimp only
  rw [if_neg (by simp)]
  refine ⟨_, rfl, ?_, ?_⟩ <;> (split <;> rfl)

theorem pickAttemptBody_reset (env : PickEnv) (team : Nat) (ap : List String)
    (rn attempt : Nat) (s : MgrState)
    (hcount : alookup s.requestCounts team = some 5)
    (htool : s.agentTools.contains team = true) :
    ∃ s4 r, pickAttemptBody env team ap rn attempt s =
      (s4, [PAction.rpcCall attempt Option.none 0], r) := by
  unfold pickAttemptBody
  rw [pickPreamble_reset env team rn attempt s hcount]
  dsimp only
  rw [if_neg (by rw [htool]; simp)]
  rcases pickSendParse env team ap attempt _ with ⟨s4, r⟩
  refine ⟨s4, r, ?_⟩
  simp [alookup_aerase, alookup_aset]

end FantasyDraft

namespace FantasyDraft

/-! ## Concrete fixtures for the scenario theorems and witnesses -/

/-- OS bind probe of the C2 scenario: ports 5000-5003 are externally
occupied, everything else binds. -/
def osFreeScenario (p : Nat) : Bool := !(decide (5000 ≤ p) && decide (p ≤ 5003))

/-- OS bind probe with every port free. -/
def osFreeAll : Nat → Bool := fun _ => true

/-- A fresh session (nothing reserved, not running). -/
def sessInit : SessionState := ⟨∅, [], [], false⟩

/-- A session after a fully successful `start_agents`. -/
def sessStarted : SessionState :=
  (start_agents osFreeAll [(5000, 9000)] (fun _ => true) sessInit).1

/-- A running manager session: five tools on ports 5000-5004, a stored
continuity token and a request counter of 5 for team 1. -/
def mgrFix : MgrState :=
  { agentTools := [1, 2, 3, 5, 6], taskIds := [(1, PyVal.str "tok-a")],
    requestCounts := [(1, 5)], allocatedPorts := [5000, 5001, 5002, 5003, 5004],
    agents := [1, 2, 3, 5, 6] }

/-- Restart environment: the old serve task is still running and the
re-serve/tool-creation succeeds. -/
def renvFix : RestartEnv := ⟨true, Option.none⟩

/-- Health-check environment whose first probe answers. -/
def cenvProbeOk : CheckEnv := ⟨fun _ => ProbeOutcome.ok, true, Option.none⟩

/-- A `json.loads` that rejects every string (nothing sent is JSON). -/
def jsonNone : String → Option PyVal := fun _ => Option.none

def goodPickDict : PyVal :=
  .dict [("type", .str "pick"), ("player_name", .str "Jefferson"),
         ("reasoning", .str "elite")]

def goodCommentDict : PyVal :=
  .dict [("type", .str "comment"), ("should_comment", .bool true),
         ("comment", .str "lol")]

/-- Pick environment: timeouts on the first two attempts, a good pick on the
third. -/
def penvTT : PickEnv :=
  ⟨cenvProbeOk, fun _ => renvFix, fun _ => renvFix,
   fun a => if a < 2 then .exn ⟨"ReadTimeout", "read timeout"⟩ else .ok goodPickDict,
   jsonNone⟩

/-- Pick environment: every attempt fails with a non-retryable error. -/
def penvErr : PickEnv :=
  ⟨cenvProbeOk, fun _ => renvFix, fun _ => renvFix,
   fun _ => .exn ⟨"Boom", "nope"⟩, jsonNone⟩

/-- Pick environment: a well-received but unparseable (non-string) response. -/
def penvParseFail : PickEnv :=
  ⟨cenvProbeOk, fun _ => renvFix, fun _ => renvFix,
   fun _ => .ok (.dict [("foo", .int 1)]), jsonNone⟩

/-- Comment environment: a timeout on the first attempt, a good comment on
the second. -/
def cenvTO : CommentEnv :=
  ⟨fun a => if a == 0 then .exn ⟨"ReadTimeout", "timeout while reading"⟩
            else .ok goodCommentDict, jsonNone⟩

/-- Result projections for closed statements. -/
def pickVal : Except PyErr (Option A2AOutput × MgrState × List PAction) → Option A2AOutput
  | .ok x => x.1
  | .error _ => Option.none

def pickActs : Except PyErr (Option A2AOutput × MgrState × List PAction) → List PAction
  | .ok x => x.2.2
  | .error _ => []

def commentVal : Except PyErr (Option String × MgrState × List PAction) → Option String
  | .ok x => x.1
  | .error _ => Option.none

def backoffs (acts : List PAction) : List Nat :=
  acts.filterMap (fun a => match a with | PAction.backoff ms => some ms | _ => Option.none)

def resState {α : Type} (dflt : MgrState) :
    Except PyErr (α × MgrState × List PAction) → MgrState
  | .ok x => x.2.1
  | .error _ => dflt

/-! ## Claim theorems -/

/-- C1: for every reachable state produced by any sequence of reserve
(`_find_available_ports`) and release (`_release_ports`) operations by any
number of session managers, every port in a live session's
`allocated_ports` is a member of the shared `_used_ports` set, and the
`allocated_ports` of two distinct live sessions are disjoint. -/
theorem c1_shared_port_invariant (ops : List PortOp) : PortInv (runPortOps ops) :=
  runPortOps_inv ops

/-- C2 counterexample: reserving 5 ports from the single candidate range
[5000,5010) with ports 5000-5003 externally occupied, the allocator raises
port exhaustion (returns nothing) even though the window starting at 5004
fits in the range, is unreserved, and passes the bind probe — the scan is
not over every window of consecutive ports. -/
theorem c2_counterexample :
    findAvailablePorts ∅ osFreeScenario [(5000, 5010)] 5 = Option.none ∧
    5004 + 5 ≤ 5010 ∧
    (∀ p ∈ windowPorts 5004 5, osFreeScenario p = true ∧ p ∉ (∅ : Finset Nat)) := by
  decide

/-- C2 amended: within a candidate range `_find_available_ports` tries only
windows whose base is `range_start + 10·k` (stride 10), accepting the first
with no reserved port and a passing probe; in the scenario the only base
tried in [5000,5010) is 5000, so the allocator skips to the next candidate
range (returning its window [6000..6004]) — or raises exhaustion when
[5000,5010) is the only range — even though the window at 5004 fits. -/
theorem c2_amended_strided_scan :
    pyRange 5000 (5010 - 5) 10 = [5000] ∧
    findAvailablePorts ∅ osFreeScenario [(5000, 5010)] 5 = Option.none ∧
    findAvailablePorts ∅ osFreeScenario [(5000, 5010), (6000, 6010)] 5 =
      some [6000, 6001, 6002, 6003, 6004] := by
  decide

/-- C3 counterexample: a session on which `start_agents` ran but created no
agent tools (every per-agent `try` failed) is left with `is_running = false`
and its five ports reserved; `stop_agents` then returns immediately without
releasing, so port 5000 stays in the shared set after `stop_agents`. -/
theorem c3_counterexample :
    (start_agents osFreeAll [(5000, 9000)] (fun _ => false) sessInit).1.allocatedPorts =
      [5000, 5001, 5002, 5003, 5004] ∧
    stop_agents (start_agents osFreeAll [(5000, 9000)] (fun _ => false) sessInit).1 =
      (start_agents osFreeAll [(5000, 9000)] (fun _ => false) sessInit).1 ∧
    5000 ∈ (stop_agents (start_agents osFreeAll [(5000, 9000)] (fun _ => false) sessInit).1).used := by
  decide

/-- C3 amended: for every session that `start_agents` left running (at least
one agent tool was created), after `stop_agents` none of the ports that
session had allocated remain in the shared reserved set, so a subsequent
reserve can succeed with those same ports. -/
theorem c3_amended_release_when_running (s : SessionState) (h : s.isRunning = true) :
    ∀ p ∈ s.allocatedPorts, p ∉ (stop_agents s).used := by
  intro p hp
  unfold stop_agents
  rw [h]
  simp [List.mem_toFinset, hp]

theorem c3_amended_release_when_running_witness :
    sessStarted.isRunning = true ∧
    (∀ p ∈ sessStarted.allocatedPorts, p ∉ (stop_agents sessStarted).used) ∧
    (start_agents osFreeAll [(5000, 9000)] (fun _ => true) (stop_agents sessStarted)).1.allocatedPorts =
      sessStarted.allocatedPorts :=
  ⟨by decide, c3_amended_release_when_running sessStarted (by decide), by decide⟩

/-- C9 counterexample: `parse_a2a_response` applied to the dict
`{"status": 42}` raises `TypeError` (the Python `in` operator on an `int`),
so it is not total over arbitrary dict field types. -/
theorem c9_counterexample :
    parse_a2a_response jsonNone (.dict [("status", .int 42)]) =
      .error ⟨"TypeError", "argument of type int is not iterable"⟩ := rfl

/-- A value whose top-level `status` field (when it is a dict and the value
is inspected) is a container, so the Python `in` test cannot raise. -/
def safeStatusVal (v : PyVal) : Bool :=
  match v with
  | .dict kvs =>
    match dlookup kvs "status" with
    | some (.int _) => false
    | some (.bool _) => false
    | some PyVal.none => false
    | some (.obj _) => false
    | _ => true
  | _ => true

theorem parseConverted_total (jl : String → Option PyVal) (r : PyVal)
    (hr : safeStatusVal r = true) : ∃ o, parseConverted jl r = .ok o := by
  cases r with
  | dict kvs =>
    unfold parseConverted
    dsimp only
    split
    · exact ⟨_, rfl⟩
    · split
      · unfold safeStatusVal at hr
        dsimp only at hr
        cases hs : dlookup kvs "status" with
        | none => exact ⟨Option.none, rfl⟩
        | some sv =>
          rw [hs] at hr
          dsimp only [Option.getD]
          cases sv with
          | str sx =>
            simp only [pyContainsStr]
            cases hc : containsSub sx "message"
            · exact ⟨Option.none, rfl⟩
            · exact ⟨extractFromWrapper jl kvs, rfl⟩
          | dict dx =>
            simp only [pyContainsStr]
            cases hc : dx.any (fun kv => kv.1 == "message")
            · exact ⟨Option.none, rfl⟩
            · exact ⟨extractFromWrapper jl kvs, rfl⟩
          | list lx =>
            simp only [pyContainsStr]
            cases hc : lx.any (pyEqStr "message")
            · exact ⟨Option.none, rfl⟩
            · exact ⟨extractFromWrapper jl kvs, rfl⟩
          | int n => simp at hr
          | bool b => simp at hr
          | none => simp at hr
          | obj o => simp at hr
      · exact ⟨_, rfl⟩
  | obj o => exact ⟨some o, rfl⟩
  | str s => exact ⟨Option.none, rfl⟩
  | int n => exact ⟨Option.none, rfl⟩
  | bool b => exact ⟨Option.none, rfl⟩
  | none => exact ⟨Option.none, rfl⟩
  | list xs => exact ⟨Option.none, rfl⟩

/-- C9 amended: `parse_a2a_response` returns an instance-or-`None` and never
raises for every input and every `json.loads` behaviour, EXCEPT when the
value being converted is a dict whose `status` field holds a non-container
value (int, bool, `None`, or a model instance) and the dict is not already
converted via a usable `type` field: there a `TypeError` escapes (e.g. on
`{"status": 42}`). -/
theorem c9_amended_parse_total (jl : String → Option PyVal) (v : PyVal)
    (hjl : ∀ str w, jl str = some w → safeStatusVal w = true)
    (hv : safeStatusVal v = true) :
    ∃ o, parse_a2a_response jl v = .ok o := by
  unfold parse_a2a_response
  cases hs1 : parseStage1 jl v with
  | none => exact ⟨Option.none, rfl⟩
  | some r =>
    refine parseConverted_total jl r ?_
    unfold parseStage1 at hs1
    cases v with
    | str s =>
      dsimp only at hs1
      split at hs1
      · split at hs1
        · rename_i js hjs
          cases hw : jl js with
          | none => rw [hw] at hs1; cases hs1
          | some w =>
            rw [hw] at hs1
            cases hs1
            exact hjl js r hw
        · cases hs1
          rfl
      · cases hw : jl s with
        | none => rw [hw] at hs1; cases hs1
        | some w =>
          rw [hw] at hs1
          cases hs1
          exact hjl s r hw
    | dict kvs => cases hs1; exact hv
    | obj o => cases hs1; rfl
    | int n => cases hs1; rfl
    | bool b => cases hs1; rfl
    | none => cases hs1; rfl
    | list xs => cases hs1; rfl

theorem c9_amended_parse_total_witness :
    safeStatusVal (.str "hello world") = true ∧
    (∃ o, parse_a2a_response jsonNone (.str "hello world") = .ok o) :=
  ⟨rfl, c9_amended_parse_total jsonNone (.str "hello world")
    (fun str w h => absurd h (by simp [jsonNone])) rfl⟩

/-- C10: `get_comment` never modifies the per-worker request counter map
`request_counts` — for every environment, team and state, the state it
returns carries the same `request_counts` it started with (only `task_ids`
may change). -/
theorem c10_comment_preserves_request_counts (env : CommentEnv) (team : Nat)
    (s : MgrState) :
    (resState s (get_comment env team s)).requestCounts = s.requestCounts := by
  unfold get_comment
  split
  · rfl
  · obtain ⟨out, s2, acts, heq⟩ := getCommentLoop_total env team 2 0 s []
    rw [heq]
    exact getCommentLoop_counts env team 2 0 s [] out s2 acts heq

end FantasyDraft

namespace FantasyDraft

/-- The action trace of the successful restart of team 1 in `mgrFix`. -/
def c4trace : List RAction :=
  [RAction.cancelTask, RAction.popTool, RAction.sleepMs 1000,
   RAction.bindServe 5000, RAction.waitForServer 5000, RAction.createTool 5000]

/-- C4 counterexample: `restart_agent_server` on a live worker cancels the
serve task, pops the tool, sleeps a fixed 1.0 s and re-binds — its action
trace contains no bind probe at all, so it never confirms the port is free
before re-binding (a worker whose port stays bound past the fixed sleep is
re-bound while occupied). -/
theorem c4_counterexample :
    restart_agent_server renvFix 1 mgrFix =
      .ok (true, { mgrFix with agentTools := 1 :: mgrFix.agentTools.filter (fun y => y != 1) },
           c4trace) ∧
    (∀ p, RAction.bindProbe p ∉ c4trace) ∧ RAction.sleepMs 1000 ∈ c4trace ∧
    RAction.bindServe 5000 ∈ c4trace := by
  refine ⟨rfl, ?_, by simp [c4trace], by simp [c4trace]⟩
  intro p
  simp [c4trace]

/-- C4 amended: after cancelling the still-running serve task,
`restart_agent_server` waits a fixed 1.0-second sleep — never a bind probe —
and then re-binds the server on the same port unconditionally: every
returned trace is free of bind-probe actions, and every re-bind is preceded
only by that fixed sleep. -/
theorem c4_amended_fixed_sleep_no_probe (env : RestartEnv) (team : Nat) (s : MgrState)
    (b : Bool) (s2 : MgrState) (tr : List RAction)
    (h : restart_agent_server env team s = .ok (b, s2, tr)) :
    (∀ p, RAction.bindProbe p ∉ tr) ∧
    (∀ p, RAction.bindServe p ∈ tr → RAction.sleepMs 1000 ∈ tr) := by
  unfold restart_agent_server at h
  by_cases h1 : (!s.agents.contains team) = true
  · rw [if_pos h1] at h
    simp only [Except.ok.injEq, Prod.mk.injEq] at h
    rw [← h.2.2]
    constructor
    · intro p; simp
    · intro p hp; simp at hp
  · rw [if_neg h1] at h
    cases hidx : pyListIndex agentTeams team with
    | error e => rw [hidx] at h; cases h
    | ok i =>
      rw [hidx] at h
      dsimp only at h
      by_cases h2 : i ≥ s.allocatedPorts.length
      · rw [if_pos h2] at h
        simp only [Except.ok.injEq, Prod.mk.injEq] at h
        rw [← h.2.2]
        constructor
        · intro p; simp
        · intro p hp; simp at hp
      · rw [if_neg h2] at h
        cases hag : s.agents.contains team with
        | false => rw [hag] at h1; simp at h1
        | true =>
          rw [hag] at h
          cases htr : env.taskRunning <;> rw [htr] at h <;>
            cases hse : env.serveToolExn <;> rw [hse] at h <;>
              (simp only [Bool.not_true, Bool.false_eq_true, eq_self_iff_true,
                 if_true, if_false, Except.ok.injEq, Prod.mk.injEq] at h
               rw [← h.2.2]
               constructor
               · intro p; simp
               · intro p hp; simp)

theorem c4_amended_fixed_sleep_no_probe_witness :
    (∀ p, RAction.bindProbe p ∉ c4trace) ∧
    (∀ p, RAction.bindServe p ∈ c4trace → RAction.sleepMs 1000 ∈ c4trace) :=
  c4_amended_fixed_sleep_no_probe renvFix 1 mgrFix true
    { mgrFix with agentTools := 1 :: mgrFix.agentTools.filter (fun y => y != 1) }
    c4trace rfl

end FantasyDraft

namespace FantasyDraft

/-- C5: in `get_pick`, when a worker's request counter has reached the reset
threshold 5 (and a continuity token is held), the stored `task_id` is
discarded and the counter reset to zero before the next request is
constructed: the first outgoing RPC of the call carries no task id and a
counter of 0. -/
theorem c5_context_reset_before_request (env : PickEnv) (team : Nat)
    (players : List String) (rn : Nat) (s : MgrState) (tok : PyVal)
    (hcount : alookup s.requestCounts team = some 5)
    (_htok : alookup s.taskIds team = some tok)
    (htool : s.agentTools.contains team = true)
    (hteams : ∀ t ∈ s.agentTools, t ∈ agentTeams)
    (hlen : 5 ≤ s.allocatedPorts.length)
    (hprobe : env.check.probes 0 = ProbeOutcome.ok) :
    ∃ out s2 tail, get_pick env team players rn s =
      .ok (out, s2, PAction.rpcCall 0 Option.none 0 :: tail) := by
  have hteam : team ∈ agentTeams := hteams team (by simpa using htool)
  unfold get_pick
  rw [if_neg (by rw [htool]; simp)]
  rw [check_probe_ok env.check team s hprobe hteam hlen htool]
  dsimp only
  obtain ⟨s4, r, hbody⟩ := pickAttemptBody_reset env team players rn 0 s hcount htool
  unfold getPickLoop
  rw [hbody]
  dsimp only
  cases r with
  | ok out => exact ⟨out, s4, [], rfl⟩
  | error e =>
    dsimp only
    by_cases hretry : (decide (0 < 3 - 1) && (isTimeoutErr e || isNetworkErr e)) = true
    · rw [if_pos hretry]
      by_cases h503 : (is503Err e && 0 == 0) = true
      · rw [if_pos h503]
        obtain ⟨b2, s5, tr2, hre⟩ := restart_agent_server_total (env.restartB 0) team s4 hteam
        rw [hre]
        dsimp only
        simp only [Nat.zero_add]
        obtain ⟨out2, s6, acts2, heq⟩ := getPickLoop_total env team players rn hteam 2 1 s5
          ([] ++ [PAction.rpcCall 0 Option.none 0] ++ [PAction.restartInvoke] ++
           [PAction.backoff (1000 * 2 ^ 0)])
        obtain ⟨tail0, ht⟩ := getPickLoop_acts_shape env team players rn 2 1 s5
          ([] ++ [PAction.rpcCall 0 Option.none 0] ++ [PAction.restartInvoke] ++
           [PAction.backoff (1000 * 2 ^ 0)]) out2 s6 acts2 heq
        refine ⟨out2, s6, [PAction.restartInvoke] ++ [PAction.backoff (1000 * 2 ^ 0)] ++ tail0, ?_⟩
        rw [heq, ht]
        simp
      · rw [if_neg h503]
        dsimp only
        simp only [Nat.zero_add]
        obtain ⟨out2, s6, acts2, heq⟩ := getPickLoop_total env team players rn hteam 2 1 s4
          ([] ++ [PAction.rpcCall 0 Option.none 0] ++ [] ++ [PAction.backoff (1000 * 2 ^ 0)])
        obtain ⟨tail0, ht⟩ := getPickLoop_acts_shape env team players rn 2 1 s4
          ([] ++ [PAction.rpcCall 0 Option.none 0] ++ [] ++ [PAction.backoff (1000 * 2 ^ 0)])
          out2 s6 acts2 heq
        refine ⟨out2, s6, [PAction.backoff (1000 * 2 ^ 0)] ++ tail0, ?_⟩
        rw [heq, ht]
        simp
    · rw [if_neg hretry]
      exact ⟨Option.none, s4, [], rfl⟩

theorem c5_context_reset_before_request_witness :
    ∃ out s2 tail, get_pick penvErr 1 ["Jefferson"] 1 mgrFix =
      .ok (out, s2, PAction.rpcCall 0 Option.none 0 :: tail) :=
  c5_context_reset_before_request penvErr 1 ["Jefferson"] 1 mgrFix (PyVal.str "tok-a")
    rfl rfl rfl (by decide) (by decide) rfl

/-- C7: `get_pick` and `get_comment` never raise to the caller: in any
well-formed running state (tools drawn from the five agent teams, the five
allocated ports present) and for every behaviour of the environment —
timeouts, transient network errors, malformed responses, crashed workers,
failures inside the health-check-and-restart path — each operation returns
normally (with a parsed result or `None`), never an escaping exception. -/
theorem c7_never_raises (env : PickEnv) (cenv : CommentEnv) (team : Nat)
    (ap : List String) (rn : Nat) (s : MgrState)
    (hteams : ∀ t ∈ s.agentTools, t ∈ agentTeams)
    (hlen : 5 ≤ s.allocatedPorts.length) :
    (∃ out s2 acts, get_pick env team ap rn s = .ok (out, s2, acts)) ∧
    (∃ out s2 acts, get_comment cenv team s = .ok (out, s2, acts)) := by
  constructor
  · unfold get_pick
    by_cases htool : (!s.agentTools.contains team) = true
    · rw [if_pos htool]; exact ⟨_, _, _, rfl⟩
    · rw [if_neg htool]
      have hteam : team ∈ agentTeams := by
        refine hteams team ?_
        rw [Bool.not_eq_true', Bool.not_eq_false] at htool
        simpa using htool
      obtain ⟨b, s1, hc⟩ := check_and_restart_agent_total env.check team s hteams hlen
      rw [hc]
      cases b with
      | false => exact ⟨_, _, _, rfl⟩
      | true => exact getPickLoop_total env team ap rn hteam 3 0 s1 []
  · unfold get_comment
    split
    · exact ⟨_, _, _, rfl⟩
    · exact getCommentLoop_total cenv team 2 0 s []

theorem c7_never_raises_witness :
    (∃ out s2 acts, get_pick penvErr 1 ["Jefferson"] 1 mgrFix = .ok (out, s2, acts)) ∧
    (∃ out s2 acts, get_comment cenvTO 1 mgrFix = .ok (out, s2, acts)) :=
  c7_never_raises penvErr cenvTO 1 ["Jefferson"] 1 mgrFix (by decide) (by decide)

end FantasyDraft

namespace FantasyDraft

/-- The pick object the plain-text fallback constructs (lines 637-642). -/
def fallbackPick (player : String) : A2AOutput :=
  { type := "pick", player_name := some player,
    reasoning := some "[Agent response was not in correct format]",
    trash_talk := Option.none, should_comment := Option.none,
    comment := Option.none }

theorem pickSendParse_fallback (env : PickEnv) (team : Nat) (players : List String)
    (attempt : Nat) (s3 : MgrState) (raw : String) (player : String)
    (hcall : env.callOutcome attempt = CallOutcome.ok (.str raw))
    (hparse : parse_a2a_response env.jsonLoads (.str raw) = .ok Option.none)
    (hfound : (players.take 20).find? (fun p => containsSub raw p) = some player) :
    pickSendParse env team players attempt s3 =
      (storeTaskId team (.str raw) s3, .ok (some (fallbackPick player))) := by
  unfold pickSendParse
  rw [hcall]
  dsimp only
  rw [hparse]
  dsimp only
  rw [hfound]
  rfl

/-- C8 amended: when a worker's response fails structured parsing but is a
plain-text string containing the name of one of the FIRST TWENTY available
players, `get_pick` returns a pick whose `player_name` is the first such
player in list order; only the first 20 entries of `available_players` are
scanned, so a name occurring only later in the list is not recovered. -/
theorem c8_amended_fallback_first20 (env : PickEnv) (team : Nat)
    (players : List String) (s : MgrState) (raw : String) (player : String)
    (hteams : ∀ t ∈ s.agentTools, t ∈ agentTeams)
    (hlen : 5 ≤ s.allocatedPorts.length)
    (htool : s.agentTools.contains team = true)
    (hprobe : env.check.probes 0 = ProbeOutcome.ok)
    (hcall : env.callOutcome 0 = CallOutcome.ok (.str raw))
    (hparse : parse_a2a_response env.jsonLoads (.str raw) = .ok Option.none)
    (hfound : (players.take 20).find? (fun p => containsSub raw p) = some player) :
    ∃ s2 acts, get_pick env team players 1 s =
      .ok (some (fallbackPick player), s2, acts) := by
  have hteam : team ∈ agentTeams := hteams team (by simpa using htool)
  unfold get_pick
  rw [if_neg (by rw [htool]; simp)]
  rw [check_probe_ok env.check team s hprobe hteam hlen htool]
  dsimp only
  unfold getPickLoop
  unfold pickAttemptBody
  obtain ⟨s2, hpre, htools2, _hports2⟩ := pickPreamble_round1 env team 0 s
  rw [hpre]
  dsimp only
  rw [if_neg (by rw [htools2, htool]; simp)]
  rw [pickSendParse_fallback env team players 0 s2 raw player hcall hparse hfound]
  exact ⟨_, _, rfl⟩

/-- Pick environment whose response is plain text naming player Jefferson. -/
def penvTextJeff : PickEnv :=
  ⟨cenvProbeOk, fun _ => renvFix, fun _ => renvFix,
   fun _ => CallOutcome.ok (.str "I will take Jefferson today"), jsonNone⟩

theorem c8_amended_fallback_first20_witness :
    ∃ s2 acts, get_pick penvTextJeff 1 ["Jefferson", "Chase"] 1 mgrFix =
      .ok (some (fallbackPick "Jefferson"), s2, acts) :=
  c8_amended_fallback_first20 penvTextJeff 1 ["Jefferson", "Chase"] mgrFix
    "I will take Jefferson today" "Jefferson"
    (by decide) (by decide) rfl rfl rfl rfl (by decide)

/-- The 21-player list of the C8 counterexample: only the last (21st) name
occurs in the response text. -/
def players21 : List String :=
  ["Alpha01", "Alpha02", "Alpha03", "Alpha04", "Alpha05", "Alpha06", "Alpha07",
   "Alpha08", "Alpha09", "Alpha10", "Alpha11", "Alpha12", "Alpha13", "Alpha14",
   "Alpha15", "Alpha16", "Alpha17", "Alpha18", "Alpha19", "Alpha20", "Zeta"]

/-- Pick environment whose response is plain text naming only the 21st
available player. -/
def penvZeta : PickEnv :=
  ⟨cenvProbeOk, fun _ => renvFix, fun _ => renvFix,
   fun _ => CallOutcome.ok (.str "I will take Zeta this round"), jsonNone⟩

/-- C8 counterexample: the response is plain text (parse yields `None`)
containing the name of the available player `Zeta`, yet `get_pick` returns
`None`, because `Zeta` is the 21st entry and the fallback scans only
`available_players[:20]` — refuting "returns a pick whenever the text
contains the name of an available player". -/
theorem c8_counterexample :
    pickVal (get_pick penvZeta 1 players21 1 mgrFix) = Option.none ∧
    "Zeta" ∈ players21 ∧
    containsSub "I will take Zeta this round" "Zeta" = true ∧
    parse_a2a_response jsonNone (.str "I will take Zeta this round") = .ok Option.none := by
  refine ⟨rfl, by decide, by decide, rfl⟩

end FantasyDraft

namespace FantasyDraft

/-- The parsed output of `goodPickDict`. -/
def parsedGoodPick : A2AOutput :=
  { type := "pick", player_name := some "Jefferson", reasoning := some "elite",
    trash_talk := Option.none, should_comment := Option.none,
    comment := Option.none }

/-- C6 counterexample: `get_comment` makes up to 2 attempts per call, not 1:
on a call whose first attempt times out and whose second succeeds, the
returned comment comes from the second outgoing request (2 RPCs were
sent), refuting "the comment path makes 1 attempt per call". -/
theorem c6_counterexample :
    commentVal (get_comment cenvTO 1 mgrFix) = some "lol" ∧
    resRpcCount (get_comment cenvTO 1 mgrFix) = 2 := ⟨rfl, rfl⟩

/-- C6 amended: `get_pick` makes at most 3 attempts per call and
`get_comment` at most 2 (`max_retries = 2`, line 684); a retry happens only
for timeout- or transient-network-class failures — a received-but-unparseable
response is returned as `None` after a single attempt — and before retry
`i+1` the client waits `base_delay · 2^i` (1 s then 2 s), a success on a
later attempt returning the parsed result. -/
theorem c6_amended_retry_policy :
    (∀ env team ap rn s, resRpcCount (get_pick env team ap rn s) ≤ 3) ∧
    (∀ env team s, resRpcCount (get_comment env team s) ≤ 2) ∧
    pickVal (get_pick penvTT 1 ["Jefferson"] 1 mgrFix) = some parsedGoodPick ∧
    backoffs (pickActs (get_pick penvTT 1 ["Jefferson"] 1 mgrFix)) = [1000, 2000] ∧
    pickVal (get_pick penvParseFail 1 ["Jefferson"] 1 mgrFix) = Option.none ∧
    resRpcCount (get_pick penvParseFail 1 ["Jefferson"] 1 mgrFix) = 1 :=
  ⟨get_pick_rpcBound, get_comment_rpcBound, rfl, rfl, rfl, rfl⟩

end FantasyDraft
